import Mathlib

/-!
Verification of the light-packing and attachment-management core of
`framework/rendering/subpass.h` (class `vkb::Subpass`).

Scalars of the GPU records (glm floats) are modelled as rationals; the
claims under study are structural (counts, ordering, field composition,
control flow), not about floating-point rounding.  Quaternion application
to a vector follows the glm formula for `operator*(quat, vec3)`.

External collaborator types (scene-graph light component, node transform)
are not under `src/`; their observable fields are modelled from the spec
(section 3, "Scene light (external)").
-/

namespace vkb

/-- Two-component vector (glm::vec2). -/
structure Vec2 where
  x : Rat
  y : Rat
deriving DecidableEq, Repr

/-- Three-component vector (glm::vec3). -/
structure Vec3 where
  x : Rat
  y : Rat
  z : Rat
deriving DecidableEq, Repr

/-- Four-component vector (glm::vec4). -/
structure Vec4 where
  x : Rat
  y : Rat
  z : Rat
  w : Rat
deriving DecidableEq, Repr

/-- Quaternion (glm::quat), components w, x, y, z. -/
structure Quat where
  w : Rat
  x : Rat
  y : Rat
  z : Rat
deriving DecidableEq, Repr

/-- Cross product of two vectors, as in glm::cross. -/
def Vec3.cross (a b : Vec3) : Vec3 :=
  { x := a.y * b.z - a.z * b.y
  , y := a.z * b.x - a.x * b.z
  , z := a.x * b.y - a.y * b.x }

/-- Componentwise vector addition. -/
def Vec3.add (a b : Vec3) : Vec3 :=
  { x := a.x + b.x, y := a.y + b.y, z := a.z + b.z }

/-- Scalar multiple of a vector. -/
def Vec3.smul (c : Rat) (v : Vec3) : Vec3 :=
  { x := c * v.x, y := c * v.y, z := c * v.z }

/-- Application of a rotation quaternion to a vector, the glm
formula for `operator*(glm::quat, glm::vec3)`:
`v + ((uv * q.w) + uuv) * 2` with `uv = cross(q.xyz, v)`,
`uuv = cross(q.xyz, uv)`. -/
def Quat.rotate (q : Quat) (v : Vec3) : Vec3 :=
  let qv : Vec3 := { x := q.x, y := q.y, z := q.z }
  let uv := qv.cross v
  let uuv := qv.cross uv
  v.add (Vec3.smul 2 ((Vec3.smul q.w uv).add uuv))

/-- GPU Light Record, `struct alignas(16) Light` of subpass.h lines 40 to 46:
`position.w` carries the light type, `color.w` the intensity,
`direction.w` the range, `info` the inner and outer cone angles. -/
structure Light where
  position : Vec4
  color : Vec4
  direction : Vec4
  info : Vec2
deriving DecidableEq, Repr

/-- Modelled from the spec: the scene-graph light type enumeration
(`sg::LightType`, scene_graph/components/light.h, not under src). -/
inductive LightType
  | directional
  | point
  | spot
deriving DecidableEq, Repr

/-- Modelled from the spec: numeric value of the light type enumeration, as
produced by `static_cast<float>(light->get_light_type())`. -/
def LightType.toScalar : LightType → Rat
  | LightType.directional => 0
  | LightType.point => 1
  | LightType.spot => 2

/-- Modelled from the spec: photometric properties of a scene light
(`sg::LightProperties`, not under src): color, intensity, local direction,
range, inner and outer cone angle. -/
structure LightProperties where
  color : Vec3
  intensity : Rat
  direction : Vec3
  range : Rat
  inner_cone_angle : Rat
  outer_cone_angle : Rat
deriving DecidableEq, Repr

/-- Modelled from the spec: the transform of the owning scene-graph node,
exposing the world translation and world rotation read by the packing code
(`get_translation()`, `get_rotation()`). -/
structure Transform where
  translation : Vec3
  rotation : Quat
deriving DecidableEq, Repr

/-- Modelled from the spec: one scene light (`sg::Light`, not under src),
offering its type, its properties, and (through its node) its transform. -/
structure SceneLight where
  light_type : LightType
  properties : LightProperties
  transform : Transform
deriving DecidableEq, Repr

/-- The per-light transform shared by both packing operations, the lambda of
subpass.h lines 134 to 142 (and repeated at lines 173 to 176): builds one GPU
Light Record from a scene light. -/
def lightTransform (light : SceneLight) : Light :=
  { position :=
      { x := light.transform.translation.x
      , y := light.transform.translation.y
      , z := light.transform.translation.z
      , w := light.light_type.toScalar }
  , color :=
      { x := light.properties.color.x
      , y := light.properties.color.y
      , z := light.properties.color.z
      , w := light.properties.intensity }
  , direction :=
      { x := (light.transform.rotation.rotate light.properties.direction).x
      , y := (light.transform.rotation.rotate light.properties.direction).y
      , z := (light.transform.rotation.rotate light.properties.direction).z
      , w := light.properties.range }
  , info :=
      { x := light.properties.inner_cone_angle
      , y := light.properties.outer_cone_angle } }

/-- Light Uniform Container: the written part of a `T` value
(ForwardLights / DeferredLights), holding the `count` field and the GPU Light
Records written into the `lights` array, in order.  `count` is set through
`to_u32`; the sizes under study fit in 32 bits, so it is carried as a Nat. -/
structure LightUniformContainer where
  count : Nat
  lights : List Light
deriving DecidableEq, Repr

/-- Result of running a packing operation: normal completion carrying the
container uploaded to the buffer, a failed `assert`, or undefined behavior
(an out-of-bounds standard-library access). -/
inductive Outcome (α : Type)
  | ok (value : α)
  | assertionFailure
  | undefinedBehavior
deriving DecidableEq, Repr

/-- The invariant of spec section 3 for a container variant of capacity
`cap`: the count field does not exceed the capacity. -/
def count_le_capacity (cap : Nat) (c : LightUniformContainer) : Prop :=
  c.count ≤ cap

/-- Subpass::allocate_lights (subpass.h lines 126 to 149): asserts
`scene_lights.size() <= max_lights`, sets `count` to the list size, and
writes the transform of each light, in input order, with `std::transform`.
The buffer allocation and upload hand the container to external
collaborators unchanged, so the model returns the container itself. -/
def allocate_lights (scene_lights : List SceneLight) (max_lights : Nat) :
    Outcome LightUniformContainer :=
  if scene_lights.length ≤ max_lights then
    Outcome.ok
      { count := scene_lights.length
      , lights := scene_lights.map lightTransform }
  else
    Outcome.assertionFailure

/-- Subpass::allocate_set_num_lights (subpass.h lines 160 to 186): sets
`count = num_lights` with no capacity or size check, then for each
`i < num_lights` reads `scene_lights.at(i)` when `i < scene_lights.size()`
and `scene_lights.back()` otherwise.  `back()` on an empty vector is
undefined behavior; it is reached exactly when the list is empty and
`num_lights > 0`. -/
def allocate_set_num_lights (scene_lights : List SceneLight) (num_lights : Nat) :
    Outcome LightUniformContainer :=
  if hL : scene_lights = [] then
    if num_lights = 0 then
      Outcome.ok { count := 0, lights := [] }
    else
      Outcome.undefinedBehavior
  else
    Outcome.ok
      { count := num_lights
      , lights := (List.range num_lights).map (fun i =>
          lightTransform
            (if h : i < scene_lights.length then
              scene_lights.get ⟨i, h⟩
            else
              scene_lights.getLast hL)) }

/-- The attachment-related state of a Subpass (subpass.h lines 198 to 204):
the ordered input and output attachment index lists.  The in-class member
initializers default the input list to empty and the output list to the
single index 0. -/
structure Subpass where
  input_attachments : List Nat
  output_attachments : List Nat
deriving DecidableEq, Repr

/-- A newly constructed Subpass.  The constructor body lives in subpass.cpp,
which is not under src; Modelled from the spec: the constructor leaves the
attachment lists at their member-initializer defaults of subpass.h lines
201 and 204 (input empty, output the single entry 0). -/
def mkSubpass : Subpass :=
  { input_attachments := [], output_attachments := [0] }

/-- Modelled from the spec: Subpass::set_input_attachments (declared at
subpass.h line 102, body in subpass.cpp, not under src) replaces the whole
stored input list with its argument, with no merging. -/
def set_input_attachments (s : Subpass) (input : List Nat) : Subpass :=
  { s with input_attachments := input }

/-- Modelled from the spec: Subpass::set_output_attachments (declared at
subpass.h line 106, body in subpass.cpp, not under src) replaces the whole
stored output list with its argument, with no merging. -/
def set_output_attachments (s : Subpass) (output : List Nat) : Subpass :=
  { s with output_attachments := output }

/-- The attachment index lists of the active render target (external
collaborator state mutated by the attachment bridge). -/
structure RenderTarget where
  input_attachments : List Nat
  output_attachments : List Nat
deriving DecidableEq, Repr

/-- Modelled from the spec: Subpass::update_render_target_attachments
(declared at subpass.h line 84, body in subpass.cpp, not under src) pushes
exactly the currently stored input and output lists of the subpass into the
active render target. -/
def update_render_target_attachments (s : Subpass) (rt : RenderTarget) :
    RenderTarget :=
  { rt with
      input_attachments := s.input_attachments
    , output_attachments := s.output_attachments }

/-- A concrete point light used to instantiate the theorems: at translation
(1, 2, 3) under the identity rotation, red, intensity 5, direction +z,
range 10. -/
def light_a : SceneLight :=
  { light_type := LightType.point
  , properties :=
      { color := { x := 1, y := 0, z := 0 }
      , intensity := 5
      , direction := { x := 0, y := 0, z := 1 }
      , range := 10
      , inner_cone_angle := 0
      , outer_cone_angle := 0 }
  , transform :=
      { translation := { x := 1, y := 2, z := 3 }
      , rotation := { w := 1, x := 0, y := 0, z := 0 } } }

/-- A concrete spot light used to instantiate the theorems: rotated a half
turn about the z axis. -/
def light_b : SceneLight :=
  { light_type := LightType.spot
  , properties :=
      { color := { x := 0, y := 1, z := 0 }
      , intensity := 3
      , direction := { x := 1, y := 0, z := 0 }
      , range := 7
      , inner_cone_angle := 1
      , outer_cone_angle := 2 }
  , transform :=
      { translation := { x := 4, y := 5, z := 6 }
      , rotation := { w := 0, x := 0, y := 0, z := 1 } } }

/-- C1: for every light list L with length at most max_lights,
allocate_lights completes normally and produces a container whose count
equals the length of L and whose record at each index i is the per-light
transform of the i-th element of L, in input order. -/
theorem allocate_lights_count_and_order (L : List SceneLight) (max_lights : Nat)
    (h : L.length ≤ max_lights) :
    ∃ c, allocate_lights L max_lights = Outcome.ok c ∧
      c.count = L.length ∧
      c.lights.length = L.length ∧
      ∀ i (hi : i < L.length),
        c.lights[i]? = some (lightTransform (L.get ⟨i, hi⟩)) := by
  refine ⟨{ count := L.length, lights := L.map lightTransform }, ?_, rfl, ?_, ?_⟩
  · simp [allocate_lights, h]
  · simp
  · intro i hi
    simp [List.getElem?_map, List.getElem?_eq_getElem hi]

/-- C1 witness: the two concrete lights with max_lights = 8 (the worked
example of spec section 8). -/
theorem allocate_lights_count_and_order_witness :
    ∃ c, allocate_lights [light_a, light_b] 8 = Outcome.ok c ∧
      c.count = [light_a, light_b].length ∧
      c.lights.length = [light_a, light_b].length ∧
      ∀ i (hi : i < [light_a, light_b].length),
        c.lights[i]? = some (lightTransform ([light_a, light_b].get ⟨i, hi⟩)) :=
  allocate_lights_count_and_order [light_a, light_b] 8 (by decide)

/-- C3: for every non-empty light list L and every n, allocate_set_num_lights
completes normally with count = n and exactly n records; the record at each
index i below the length of L is the transform of the i-th element of L, and
every record at an index from the length of L up to n is the transform of the
last element of L. -/
theorem allocate_set_num_lights_count_pad (L : List SceneLight) (n : Nat)
    (hne : L ≠ []) :
    ∃ c, allocate_set_num_lights L n = Outcome.ok c ∧
      c.count = n ∧
      c.lights.length = n ∧
      (∀ i (hi : i < L.length), i < n →
        c.lights[i]? = some (lightTransform (L.get ⟨i, hi⟩))) ∧
      (∀ i, L.length ≤ i → i < n →
        c.lights[i]? = some (lightTransform (L.getLast hne))) := by
  refine ⟨{ count := n
          , lights := (List.range n).map (fun i =>
              lightTransform
                (if h : i < L.length then L.get ⟨i, h⟩ else L.getLast hne)) },
          ?_, rfl, by simp, ?_, ?_⟩
  · simp [allocate_set_num_lights, hne]
  · intro i hi hin
    simp [List.getElem?_map, List.getElem?_range hin, hi]
  · intro i hLi hin
    have hlt : ¬ i < L.length := Nat.not_lt.mpr hLi
    simp [List.getElem?_map, List.getElem?_range hin, hlt]

/-- C3 witness: one light padded to four records (the worked example of spec
section 8). -/
theorem allocate_set_num_lights_count_pad_witness :
    ∃ c, allocate_set_num_lights [light_a] 4 = Outcome.ok c ∧
      c.count = 4 ∧
      c.lights.length = 4 ∧
      (∀ i (hi : i < [light_a].length), i < 4 →
        c.lights[i]? = some (lightTransform ([light_a].get ⟨i, hi⟩))) ∧
      (∀ i, [light_a].length ≤ i → i < 4 →
        c.lights[i]? = some (lightTransform ([light_a].getLast (by decide)))) :=
  allocate_set_num_lights_count_pad [light_a] 4 (by decide)

/-- C4: allocate_lights fires its fatal assertion exactly on the calls that
violate the precondition that the list length is at most max_lights; under
the precondition the operation completes normally. -/
theorem allocate_lights_assertion_guard (L : List SceneLight) (m : Nat) :
    (L.length ≤ m → ∃ c, allocate_lights L m = Outcome.ok c) ∧
    (m < L.length → allocate_lights L m = Outcome.assertionFailure) := by
  constructor
  · intro h
    exact ⟨{ count := L.length, lights := L.map lightTransform },
           by simp [allocate_lights, h]⟩
  · intro h
    simp [allocate_lights, Nat.not_le.mpr h]

/-- C4 witness: one light against capacity 0 trips the assertion; against
capacity 2 the call completes normally. -/
theorem allocate_lights_assertion_guard_witness :
    allocate_lights [light_a] 0 = Outcome.assertionFailure ∧
    ∃ c, allocate_lights [light_a] 2 = Outcome.ok c :=
  ⟨(allocate_lights_assertion_guard [light_a] 0).2 (by decide),
   (allocate_lights_assertion_guard [light_a] 2).1 (by decide)⟩

/-- C10: for every light list L, empty or not, requesting zero lights
completes normally with count 0 and an empty record list: the padding loop
body never runs, so no scene light (in particular not the back of an empty
list) is ever read and no undefined behavior arises. -/
theorem allocate_set_num_lights_zero (L : List SceneLight) :
    allocate_set_num_lights L 0 = Outcome.ok { count := 0, lights := [] } := by
  by_cases hL : L = []
  · simp [allocate_set_num_lights, hL]
  · simp [allocate_set_num_lights, hL]

/-- C2: a record produced for a scene light by allocate_lights or by
allocate_set_num_lights is exactly the per-light transform: position is the
world translation of the node of the light with the light type enumeration
cast to a scalar, color is the light color with the intensity, direction is
the world rotation of the node applied to the local direction of the light
with the range, and info holds the inner and outer cone angles. -/
theorem gpu_light_record_rule (L : List SceneLight) (m n i : Nat)
    (c d : LightUniformContainer) (l : SceneLight)
    (hc : allocate_lights L m = Outcome.ok c)
    (hd : allocate_set_num_lights L n = Outcome.ok d)
    (hl : L[i]? = some l) (hin : i < n) :
    c.lights[i]? = some (lightTransform l) ∧
    d.lights[i]? = some (lightTransform l) ∧
    (lightTransform l).position =
      { x := l.transform.translation.x
      , y := l.transform.translation.y
      , z := l.transform.translation.z
      , w := l.light_type.toScalar } ∧
    (lightTransform l).color =
      { x := l.properties.color.x
      , y := l.properties.color.y
      , z := l.properties.color.z
      , w := l.properties.intensity } ∧
    (lightTransform l).direction =
      { x := (l.transform.rotation.rotate l.properties.direction).x
      , y := (l.transform.rotation.rotate l.properties.direction).y
      , z := (l.transform.rotation.rotate l.properties.direction).z
      , w := l.properties.range } ∧
    (lightTransform l).info =
      { x := l.properties.inner_cone_angle
      , y := l.properties.outer_cone_angle } := by
  have hiL : i < L.length := by
    have := List.getElem?_eq_some_iff.mp hl
    exact this.1
  have hne : L ≠ [] := List.ne_nil_of_length_pos (Nat.lt_of_le_of_lt (Nat.zero_le i) hiL)
  have hg2 : L[i] = l := by
    have h1 := List.getElem?_eq_getElem hiL
    rw [hl] at h1
    exact (Option.some.inj h1).symm
  refine ⟨?_, ?_, rfl, rfl, rfl, rfl⟩
  · rw [allocate_lights] at hc
    split at hc
    · cases hc
      simp [List.getElem?_map, hl]
    · cases hc
  · rw [allocate_set_num_lights] at hd
    rw [dif_neg hne] at hd
    cases hd
    simp [List.getElem?_map, List.getElem?_range hin, hiL, hg2]

/-- C2 witness: the record at index 1 of both packing operations on the two
concrete lights. -/
theorem gpu_light_record_rule_witness :
    ({ count := 2, lights := [lightTransform light_a, lightTransform light_b] }
        : LightUniformContainer).lights[1]? = some (lightTransform light_b) ∧
    ({ count := 3, lights := [lightTransform light_a, lightTransform light_b,
        lightTransform light_b] }
        : LightUniformContainer).lights[1]? = some (lightTransform light_b) ∧
    (lightTransform light_b).position =
      { x := light_b.transform.translation.x
      , y := light_b.transform.translation.y
      , z := light_b.transform.translation.z
      , w := light_b.light_type.toScalar } ∧
    (lightTransform light_b).color =
      { x := light_b.properties.color.x
      , y := light_b.properties.color.y
      , z := light_b.properties.color.z
      , w := light_b.properties.intensity } ∧
    (lightTransform light_b).direction =
      { x := (light_b.transform.rotation.rotate light_b.properties.direction).x
      , y := (light_b.transform.rotation.rotate light_b.properties.direction).y
      , z := (light_b.transform.rotation.rotate light_b.properties.direction).z
      , w := light_b.properties.range } ∧
    (lightTransform light_b).info =
      { x := light_b.properties.inner_cone_angle
      , y := light_b.properties.outer_cone_angle } :=
  gpu_light_record_rule [light_a, light_b] 8 3 1
    { count := 2, lights := [lightTransform light_a, lightTransform light_b] }
    { count := 3, lights := [lightTransform light_a, lightTransform light_b,
        lightTransform light_b] }
    light_b rfl rfl rfl (by decide)

/-- C9: the per-light transform is deterministic and context free: two scene
lights agreeing on type, properties and node transform yield the same GPU
Light Record, and the records two allocate_lights runs produce for them agree
regardless of list position or of the other lights processed. -/
theorem light_transform_deterministic (L₁ L₂ : List SceneLight)
    (m₁ m₂ i j : Nat) (c₁ c₂ : LightUniformContainer) (l₁ l₂ : SceneLight)
    (h₁ : allocate_lights L₁ m₁ = Outcome.ok c₁)
    (h₂ : allocate_lights L₂ m₂ = Outcome.ok c₂)
    (hl₁ : L₁[i]? = some l₁) (hl₂ : L₂[j]? = some l₂)
    (ht : l₁.light_type = l₂.light_type)
    (hp : l₁.properties = l₂.properties)
    (htr : l₁.transform = l₂.transform) :
    lightTransform l₁ = lightTransform l₂ ∧
    c₁.lights[i]? = c₂.lights[j]? := by
  have hle : l₁ = l₂ := by
    cases l₁
    cases l₂
    simp only at ht hp htr
    simp [ht, hp, htr]
  have hrec : lightTransform l₁ = lightTransform l₂ := by rw [hle]
  refine ⟨hrec, ?_⟩
  have step : ∀ (L : List SceneLight) (m k : Nat) (c : LightUniformContainer)
      (l : SceneLight), allocate_lights L m = Outcome.ok c → L[k]? = some l →
      c.lights[k]? = some (lightTransform l) := by
    intro L m k c l hc hl
    rw [allocate_lights] at hc
    split at hc
    · cases hc
      simp [List.getElem?_map, hl]
    · cases hc
  rw [step L₁ m₁ i c₁ l₁ h₁ hl₁, step L₂ m₂ j c₂ l₂ h₂ hl₂, hrec]

/-- C9 witness: the same light placed first in a singleton list and second in
a two-element list produces the same record in both runs. -/
theorem light_transform_deterministic_witness :
    lightTransform light_a = lightTransform light_a ∧
    ({ count := 1, lights := [lightTransform light_a] }
        : LightUniformContainer).lights[0]? =
      ({ count := 2, lights := [lightTransform light_b, lightTransform light_a] }
        : LightUniformContainer).lights[1]? :=
  light_transform_deterministic [light_a] [light_b, light_a] 1 2 0 1
    { count := 1, lights := [lightTransform light_a] }
    { count := 2, lights := [lightTransform light_b, lightTransform light_a] }
    light_a light_a rfl rfl rfl rfl rfl rfl rfl

/-- C5 counterexample: with an empty light list and a request for one light,
the padding operation reaches back() on an empty vector, which is undefined
behavior; it is not surfaced as a fatal assertion, for the operation contains
no assertion at all. -/
theorem empty_pad_not_assertion_counterexample :
    allocate_set_num_lights ([] : List SceneLight) 1 =
      Outcome.undefinedBehavior ∧
    allocate_set_num_lights ([] : List SceneLight) 1 ≠
      Outcome.assertionFailure := by
  constructor
  · rfl
  · intro h
    exact Outcome.noConfusion (Eq.trans (Eq.symm (rfl :
      allocate_set_num_lights ([] : List SceneLight) 1 =
        Outcome.undefinedBehavior)) h)

/-- C5 amended: calling allocate_set_num_lights with an empty light list and
a positive requested count executes scene_lights.back() on an empty vector,
which is silent undefined behavior; no assertion guards the case. -/
theorem empty_pad_undefined_behavior (n : Nat) (h : 0 < n) :
    allocate_set_num_lights ([] : List SceneLight) n =
      Outcome.undefinedBehavior := by
  have hz : n ≠ 0 := Nat.pos_iff_ne_zero.mp h
  simp [allocate_set_num_lights, hz]

/-- C5 amended witness: the request for one light on the empty list. -/
theorem empty_pad_undefined_behavior_witness :
    allocate_set_num_lights ([] : List SceneLight) 1 =
      Outcome.undefinedBehavior :=
  empty_pad_undefined_behavior 1 (by decide)

/-- C6 counterexample: against a container variant of capacity 4,
allocate_set_num_lights with a one-light list and a requested count of 5
completes normally with count = 5, violating the invariant that the count
stays within the capacity (the operation performs no capacity check). -/
theorem count_capacity_counterexample :
    allocate_set_num_lights [light_a] 5 =
      Outcome.ok
        { count := 5
        , lights := [lightTransform light_a, lightTransform light_a,
                     lightTransform light_a, lightTransform light_a,
                     lightTransform light_a] } ∧
    ¬ count_le_capacity 4
        { count := 5
        , lights := [lightTransform light_a, lightTransform light_a,
                     lightTransform light_a, lightTransform light_a,
                     lightTransform light_a] } := by
  constructor
  · rfl
  · simp [count_le_capacity]

/-- C6 amended: the invariant count at most capacity holds for every
container produced by allocate_lights whenever max_lights is at most the
capacity of the variant, and for every container produced by
allocate_set_num_lights whenever the requested count is at most the
capacity; allocate_set_num_lights with a requested count above the capacity
violates it. -/
theorem count_le_capacity_guarded (L : List SceneLight) (cap m n : Nat)
    (hm : m ≤ cap) (hn : n ≤ cap) :
    (∀ c, allocate_lights L m = Outcome.ok c → count_le_capacity cap c) ∧
    (∀ c, allocate_set_num_lights L n = Outcome.ok c →
      count_le_capacity cap c) := by
  constructor
  · intro c hc
    rw [allocate_lights] at hc
    split at hc
    · cases hc
      rename_i hLm
      exact Nat.le_trans hLm hm
    · cases hc
  · intro c hc
    rw [allocate_set_num_lights] at hc
    split at hc
    · split at hc
      · cases hc
        exact Nat.zero_le cap
      · cases hc
    · cases hc
      exact hn

/-- C6 amended witness: one light against capacity 8 with matching bounds. -/
theorem count_le_capacity_guarded_witness :
    (∀ c, allocate_lights [light_a] 8 = Outcome.ok c →
      count_le_capacity 8 c) ∧
    (∀ c, allocate_set_num_lights [light_a] 8 = Outcome.ok c →
      count_le_capacity 8 c) :=
  count_le_capacity_guarded [light_a] 8 8 8 (by decide) (by decide)

/-- C7: a newly constructed Subpass has an output attachment list of exactly
the single entry 0 and an empty input attachment list. -/
theorem subpass_default_attachments :
    mkSubpass.output_attachments = [0] ∧
    mkSubpass.input_attachments = [] :=
  ⟨rfl, rfl⟩

/-- C8: set_input_attachments and set_output_attachments replace the whole
stored list with the given one, leaving the other list untouched and merging
nothing, and update_render_target_attachments pushes exactly the currently
stored lists into the render target. -/
theorem set_attachments_replace_and_propagate (s : Subpass)
    (rt : RenderTarget) (v w : List Nat) :
    (set_input_attachments s v).input_attachments = v ∧
    (set_input_attachments s v).output_attachments = s.output_attachments ∧
    (set_output_attachments s w).output_attachments = w ∧
    (set_output_attachments s w).input_attachments = s.input_attachments ∧
    (update_render_target_attachments s rt).input_attachments =
      s.input_attachments ∧
    (update_render_target_attachments s rt).output_attachments =
      s.output_attachments :=
  ⟨rfl, rfl, rfl, rfl, rfl, rfl⟩

end vkb
